import Mathlib

/-!
Verification of the ApiForge-Server proxy handler (`src/server.js`,
`app.post('/api/proxy')`).  The handler is embedded shallowly: JavaScript
values are modelled by `JSValue`, the request payload by `ProxyRequest`,
the axios configuration object built by the handler by `AxiosConfig`, and
the handler itself by `prepare` (everything up to and excluding the network
dispatch) and `handleProxy` (the full handler, parameterised by the outcome
of the network exchange).  Platform builtins used by the handler
(`new URL`, `parseInt`, `JSON.parse`, `JSON.stringify`, string coercion)
are modelled by executable Lean functions that follow the builtin's
behaviour on the inputs this program feeds them.
-/

/-- Model of a JavaScript/JSON value as delivered by the JSON body parser.
Numbers are modelled as integers (the handler only ever inspects them via
`parseInt` and truthiness). -/
inductive JSValue where
  | null
  | bool (b : Bool)
  | num (n : Int)
  | str (s : String)
  | obj (fields : List (String × JSValue))
  | arr (elems : List JSValue)
deriving Repr

/-- JavaScript truthiness of a value. -/
def truthyJ : JSValue → Bool
  | .null => false
  | .bool b => b
  | .num n => n != 0
  | .str s => s != ""
  | .obj _ => true
  | .arr _ => true

/-- Truthiness of a possibly-absent value (`undefined` is falsy). -/
def truthyOptJ : Option JSValue → Bool
  | none => false
  | some v => truthyJ v

/-- Truthiness of a possibly-absent string (`undefined` and `""` are falsy). -/
def truthyS : Option String → Bool
  | none => false
  | some s => s != ""

mutual

/-- Model of JavaScript string coercion `String(v)` (used by `parseInt`). -/
def jsToString : JSValue → String
  | .null => "null"
  | .bool b => cond b "true" "false"
  | .num n => toString n
  | .str s => s
  | .obj _ => "[object Object]"
  | .arr elems => jsToStringItems elems

/-- Array-to-string coercion: elements joined with commas. -/
def jsToStringItems : List JSValue → String
  | [] => ""
  | [v] => jsToString v
  | v :: rest => jsToString v ++ "," ++ jsToStringItems rest

end

/-- One escaped character of a JSON string literal, as `JSON.stringify`
produces it for the characters this program handles. -/
def escapeJsonChar (c : Char) : String :=
  if c = '"' then "\\\""
  else if c = '\\' then "\\\\"
  else if c = '\n' then "\\n"
  else if c = '\t' then "\\t"
  else if c = '\r' then "\\r"
  else String.singleton c

/-- Escape the body of a JSON string literal. -/
def escapeJson (s : String) : String :=
  String.join (s.data.map escapeJsonChar)

mutual

/-- Model of `JSON.stringify` on a defined value. -/
def jsonStringify : JSValue → String
  | .null => "null"
  | .bool b => cond b "true" "false"
  | .num n => toString n
  | .str s => "\"" ++ escapeJson s ++ "\""
  | .obj fields => "\x7b" ++ stringifyMembers fields ++ "\x7d"
  | .arr elems => "[" ++ stringifyItems elems ++ "]"

/-- Serialized object members, comma separated. -/
def stringifyMembers : List (String × JSValue) → String
  | [] => ""
  | [(k, v)] => "\"" ++ escapeJson k ++ "\":" ++ jsonStringify v
  | (k, v) :: rest =>
      "\"" ++ escapeJson k ++ "\":" ++ jsonStringify v ++ "," ++ stringifyMembers rest

/-- Serialized array elements, comma separated. -/
def stringifyItems : List JSValue → String
  | [] => ""
  | [v] => jsonStringify v
  | v :: rest => jsonStringify v ++ "," ++ stringifyItems rest

end

/-- Parse a maximal run of leading decimal digits; `none` when there is none. -/
def parseDigits (l : List Char) : Option Nat :=
  let ds := l.takeWhile Char.isDigit
  if ds.isEmpty then none
  else some (ds.foldl (fun acc c => acc * 10 + (c.toNat - '0'.toNat)) 0)

/-- Model of JavaScript `parseInt` in base 10: skip leading whitespace, read
an optional sign and then leading decimal digits, ignoring any trailing
garbage; `none` models the `NaN` outcome. -/
def parseIntJS (s : String) : Option Int :=
  let l := s.data.dropWhile (fun c => c = ' ' || c = '\t' || c = '\n' || c = '\r')
  match l with
  | '-' :: rest => (parseDigits rest).map (fun n => -(n : Int))
  | '+' :: rest => (parseDigits rest).map (fun n => (n : Int))
  | _ => (parseDigits l).map (fun n => (n : Int))

/-- Character-list version of the prefix test. -/
def listStarts : List Char → List Char → Bool
  | _, [] => true
  | [], _ :: _ => false
  | a :: as, b :: bs => (a == b) && listStarts as bs

/-- Model of JavaScript `s.startsWith(pre)`. -/
def strStarts (s pre : String) : Bool :=
  listStarts s.data pre.data

/-- First value stored under key `k` in an association list of string
properties (JavaScript property read). -/
def getKey (k : String) : List (String × String) → Option String
  | [] => none
  | (k', v) :: rest => if k' = k then some v else getKey k rest

/-- JavaScript property assignment `o[k] = v`: replace in place when the key
exists, append otherwise. -/
def setKey (k v : String) : List (String × String) → List (String × String)
  | [] => [(k, v)]
  | (k', v') :: rest =>
      if k' = k then (k, v) :: rest else (k', v') :: setKey k v rest

/-- JavaScript `delete o[k]`: removes exactly the property named `k`
(case-sensitively, like the source's `delete config.headers[header]`). -/
def deleteKey (k : String) (l : List (String × String)) : List (String × String) :=
  l.filter (fun kv => kv.1 != k)

/-- Model of the object spread `{...headers}`: later duplicate keys override
earlier ones, so the result binds each key once. -/
def objSpread (entries : List (String × String)) : List (String × String) :=
  entries.foldl (fun acc kv => setKey kv.1 kv.2 acc) []

/-- The `disallowedHeaders` array of `src/server.js`. -/
def disallowedHeaders : List String :=
  ["host", "origin", "referer", "user-agent", "accept-encoding",
   "connection", "content-length"]

/-- The default user-agent string injected by the handler. -/
def defaultUserAgent : String := "APITestingTool/1.0.0"

/-- The spread caller mapping after the `disallowedHeaders.forEach` loop of
`delete` statements. -/
def sanitizedBase (entries : List (String × String)) : List (String × String) :=
  disallowedHeaders.foldl (fun acc k => deleteKey k acc) (objSpread entries)

/-- The header block of the handler: spread the caller mapping, `delete`
each name in `disallowedHeaders`, then inject the default user-agent when
the `user-agent` property is falsy. -/
def sanitizeHeaders (entries : List (String × String)) : List (String × String) :=
  if truthyS (getKey "user-agent" (sanitizedBase entries)) then sanitizedBase entries
  else setKey "user-agent" defaultUserAgent (sanitizedBase entries)

/-- The `blockedHosts` array of `src/server.js`. -/
def blockedHosts : List String :=
  ["localhost", "127.0.0.1", "0.0.0.0", "::1",
   "10.", "192.168.",
   "172.16.", "172.17.", "172.18.", "172.19.", "172.20.", "172.21.",
   "172.22.", "172.23.", "172.24.", "172.25.", "172.26.", "172.27.",
   "172.28.", "172.29.", "172.30.", "172.31."]

/-- The source's guard `blockedHosts.some(blocked => hostname.startsWith(blocked))`:
every entry is used as a string-prefix test. -/
def isBlockedHost (hostname : String) : Bool :=
  blockedHosts.any (fun b => strStarts hostname b)

/-- The denylist rule as the specification words it: exact string equality
for the first four entries and prefix match only for the RFC1918 ranges.
Stated from the spec's words for comparison with `isBlockedHost`. -/
def specDenylistMatch (h : String) : Bool :=
  h = "localhost" || h = "127.0.0.1" || h = "0.0.0.0" || h = "::1" ||
  strStarts h "10." || strStarts h "192.168." ||
  (["172.16.", "172.17.", "172.18.", "172.19.", "172.20.", "172.21.",
    "172.22.", "172.23.", "172.24.", "172.25.", "172.26.", "172.27.",
    "172.28.", "172.29.", "172.30.", "172.31."].any (fun p => strStarts h p))

/-- The error message of the 403 policy rejection. -/
def blockedMsg : String :=
  "Requests to localhost or internal networks are not allowed in production"

/-- Scheme characters allowed by the URL grammar after the first letter. -/
def isSchemeChar (c : Char) : Bool :=
  c.isAlpha || c.isDigit || c = '+' || c = '-' || c = '.'

/-- Consume the remaining scheme characters and the `://` separator,
returning what follows; `none` when the input is not of that form. -/
def afterSchemeSep : List Char → Option (List Char)
  | ':' :: '/' :: '/' :: rest => some rest
  | c :: rest => if isSchemeChar c then afterSchemeSep rest else none
  | [] => none

/-- Everything of the authority part up to and including the closing
bracket of an IPv6 literal. -/
def upToRBracket : List Char → List Char
  | [] => []
  | ']' :: _ => [']']
  | c :: rest => c :: upToRBracket rest

/-- Character-list lower-casing, modelling `toLowerCase` on ASCII. -/
def strToLower (s : String) : String :=
  String.mk (s.data.map Char.toLower)

/-- The parsed URL as the handler uses it: only the hostname is inspected
(by the egress guard). -/
structure ParsedURL where
  hostname : String
deriving Repr, DecidableEq

/-- Model of the platform `new URL(s)` constructor, simplified to the
`scheme://host` shape the proxy receives: a leading letter, further scheme
characters, the literal `://`, then a non-empty host ended by `/`, `?` or
`#`, with an optional `:port` stripped and bracketed IPv6 hosts kept whole.
The hostname is lower-cased as the platform does.  `none` models the
constructor throwing on a malformed URL. -/
def parseURL (s : String) : Option ParsedURL :=
  match s.data with
  | [] => none
  | c :: rest =>
    if c.isAlpha then
      match afterSchemeSep rest with
      | some tail =>
        let hostPart := tail.takeWhile (fun ch => ch != '/' && ch != '?' && ch != '#')
        let hostChars :=
          match hostPart with
          | '[' :: _ => upToRBracket hostPart
          | _ => hostPart.takeWhile (fun ch => ch != ':')
        if hostChars.isEmpty then none
        else some ⟨strToLower (String.mk hostChars)⟩
      | none => none
    else none

/-- The `headers` field of the request payload, split by the source's guard
`headers && typeof headers === 'object'`: absent/falsy, truthy non-object,
or a plain object of string-valued properties. -/
inductive HeadersField where
  | absent
  | nonObject (v : JSValue)
  | map (entries : List (String × String))
deriving Repr

/-- Whether the headers field takes the `map` branch of the source guard. -/
def HeadersField.isMapB : HeadersField → Bool
  | .map _ => true
  | _ => false

/-- The `auth` object of the request payload. -/
structure AuthField where
  typ : Option String
  token : Option String
deriving Repr, DecidableEq

/-- The destructured request payload `{ url, method, headers, body, timeout, auth }`
of the proxy endpoint; `none`/`absent` model missing fields. -/
structure ProxyRequest where
  url : Option String
  method : Option String
  headers : HeadersField
  body : Option JSValue
  timeout : Option JSValue
  auth : Option AuthField
deriving Repr

/-- Deployment mode: `production` iff `process.env.NODE_ENV === 'production'`. -/
inductive EnvMode where
  | production
  | development
deriving Repr, DecidableEq, BEq

/-- An early `res.status(s).json({error, duration})` rejection, before any
dispatch; the duration is attached by the handler. -/
structure EarlyFailure where
  status : Nat
  msg : String
deriving Repr, DecidableEq

/-- The axios configuration object assembled by the handler.  The fixed
fields `validateStatus`, `maxRedirects = 0` and the two 50 MiB ceilings are
constants of the dispatch model rather than record fields.  `timeout = none`
models the `NaN` produced by `parseInt` on unparseable input. -/
structure AxiosConfig where
  method : String
  url : String
  timeout : Option Int
  headers : Option (List (String × String))
  data : Option JSValue
deriving Repr

/-- The methods array `['post', 'put', 'patch', 'delete']` guarding body
attachment. -/
def bodyMethods : List String := ["post", "put", "patch", "delete"]

/-- Error message of the `TypeError` raised by assigning a property on
`undefined`, as the auth block does when no headers object was built. -/
def authTypeErrorMsg : String :=
  "Cannot set properties of undefined (setting 'Authorization')"

/-- The auth block: when `auth && auth.type === 'medimapper' && auth.token`,
assign `config.headers['Authorization']`; on an absent headers object this
assignment throws, which the handler's catch turns into the generic 500. -/
def applyAuth (auth : Option AuthField) (hdrs : Option (List (String × String))) :
    Except EarlyFailure (Option (List (String × String))) :=
  match auth with
  | some a =>
    if (a.typ == some "medimapper") && truthyS a.token then
      match hdrs with
      | none => .error ⟨500, authTypeErrorMsg⟩
      | some h => .ok (some (setKey "Authorization" ("Bearer " ++ a.token.getD "") h))
    else .ok hdrs
  | none => .ok hdrs

/-- The `config.headers` object after the source's header block: present
iff the caller supplied a truthy object, in which case it is the sanitized
mapping. -/
def builtHeaders : HeadersField → Option (List (String × String))
  | .map entries => some (sanitizeHeaders entries)
  | _ => none

/-- Assembly of the axios configuration once validation and the egress
guard have passed: the header block and auth block (which can throw), the
timeout conversion, and the body attachment. -/
def buildStage (r : ProxyRequest) : Except EarlyFailure AxiosConfig :=
  match applyAuth r.auth (builtHeaders r.headers) with
  | .error e => .error e
  | .ok hdrs2 =>
    .ok { method := strToLower (r.method.getD "")
          url := r.url.getD ""
          timeout := parseIntJS (jsToString (r.timeout.getD (.num 30000)))
          headers := hdrs2
          data := if bodyMethods.contains (strToLower (r.method.getD ""))
                     && truthyOptJ r.body
                  then r.body else none }

/-- Stages of the proxy handler before the network dispatch: field
validation, URL parsing, the production egress guard, and assembly of the
axios configuration (headers block, auth block, body attachment, timeout).
Returns the early failure when the handler responds without dispatching. -/
def prepare (mode : EnvMode) (r : ProxyRequest) : Except EarlyFailure AxiosConfig :=
  if truthyS r.url = false then .error ⟨400, "URL is required"⟩
  else if truthyS r.method = false then .error ⟨400, "HTTP method is required"⟩
  else
    match parseURL (r.url.getD "") with
    | none => .error ⟨400, "Invalid URL format"⟩
    | some u =>
      if (mode == .production) && isBlockedHost u.hostname then
        .error ⟨403, blockedMsg⟩
      else buildStage r

/-- An HTTP exchange that the upstream completed: the axios response
object's fields the handler reads.  `responseUrl` models
`response.request?.res?.responseUrl`. -/
structure UpstreamResponse where
  status : Int
  statusText : String
  headers : List (String × String)
  data : JSValue
  responseUrl : Option String
deriving Repr

/-- The handler's `validateStatus` option: accept every status in [200, 600). -/
def validateStatus (s : Int) : Bool :=
  (200 ≤ s : Bool) && (s < 600 : Bool)

/-- The axios rejection value as the catch block inspects it. -/
structure AxiosError where
  code : Option String
  response : Option UpstreamResponse
  hasRequest : Bool
  message : String
deriving Repr

/-- What happened on the wire: the upstream completed an HTTP exchange, or
the attempt failed with an axios error (refused, unresolvable, timed out,
no response, or a local fault). -/
inductive ExchangeOutcome where
  | completed (resp : UpstreamResponse)
  | failed (e : AxiosError)
deriving Repr

/-- Model of `await axios(config)` given the wire outcome: a completed
exchange resolves iff `validateStatus` accepts its status, and otherwise
rejects with an error carrying the response. -/
def axiosSettle (o : ExchangeOutcome) : Except AxiosError UpstreamResponse :=
  match o with
  | .completed resp =>
    if validateStatus resp.status then .ok resp
    else .error { code := none, response := some resp, hasRequest := true,
                  message := "Request failed with status code " ++ toString resp.status }
  | .failed e => .error e

/-- Skip JSON whitespace. -/
def skipWs (l : List Char) : List Char :=
  l.dropWhile (fun c => c = ' ' || c = '\t' || c = '\n' || c = '\r')

/-- The character denoted by a JSON escape sequence `\c`; `\u` escapes are
not modelled. -/
def escChar : Char → Option String
  | '"' => some "\""
  | '\\' => some "\\"
  | '/' => some "/"
  | 'n' => some "\n"
  | 't' => some "\t"
  | 'r' => some "\r"
  | 'b' => some "\x08"
  | 'f' => some "\x0c"
  | _ => none

/-- Parse the body of a JSON string literal (after the opening quote),
handling the common escapes; `\u` escapes are not modelled. -/
def parseJsonStr : List Char → Option (String × List Char)
  | [] => none
  | '"' :: rest => some ("", rest)
  | '\\' :: e :: rest =>
    (escChar e).bind fun esc =>
      (parseJsonStr rest).map (fun p => (esc ++ p.1, p.2))
  | c :: rest => (parseJsonStr rest).map (fun p => (String.singleton c ++ p.1, p.2))

/-- Parse a JSON integer (fractions and exponents are not modelled; they
make the model's parse fail where the builtin would succeed, degrading to
the raw-passthrough branch). -/
def parseJsonNum (l : List Char) : Option (JSValue × List Char) :=
  match l with
  | '-' :: rest =>
    (parseDigits rest).map
      (fun n => (.num (-(n : Int)), rest.dropWhile Char.isDigit))
  | _ =>
    (parseDigits l).map
      (fun n => (.num (n : Int), l.dropWhile Char.isDigit))

mutual

/-- Fuel-indexed model of `JSON.parse` on one value; the fuel bounds the
nesting depth and is chosen generously at the top level. -/
def parseJsonVal : Nat → List Char → Option (JSValue × List Char)
  | 0, _ => none
  | fuel + 1, l =>
    match skipWs l with
    | 'n' :: 'u' :: 'l' :: 'l' :: rest => some (.null, rest)
    | 't' :: 'r' :: 'u' :: 'e' :: rest => some (.bool true, rest)
    | 'f' :: 'a' :: 'l' :: 's' :: 'e' :: rest => some (.bool false, rest)
    | '"' :: rest => (parseJsonStr rest).map (fun p => (.str p.1, p.2))
    | '\x7b' :: rest =>
      (match skipWs rest with
       | '\x7d' :: rest2 => some (.obj [], rest2)
       | rest2 => (parseJsonMembers fuel rest2).map (fun p => (.obj p.1, p.2)))
    | '[' :: rest =>
      (match skipWs rest with
       | ']' :: rest2 => some (.arr [], rest2)
       | rest2 => (parseJsonElems fuel rest2).map (fun p => (.arr p.1, p.2)))
    | l' => parseJsonNum l'

/-- Parse one or more `"key": value` members followed by the closing brace. -/
def parseJsonMembers : Nat → List Char → Option (List (String × JSValue) × List Char)
  | 0, _ => none
  | fuel + 1, l =>
    match skipWs l with
    | '"' :: rest =>
      (parseJsonStr rest).bind fun kp =>
        match skipWs kp.2 with
        | ':' :: rest2 =>
          (parseJsonVal fuel rest2).bind fun vp =>
            (match skipWs vp.2 with
             | ',' :: rest3 =>
               (parseJsonMembers fuel rest3).map (fun mp => ((kp.1, vp.1) :: mp.1, mp.2))
             | '\x7d' :: rest3 => some ([(kp.1, vp.1)], rest3)
             | _ => none)
        | _ => none
    | _ => none

/-- Parse one or more array elements followed by the closing bracket. -/
def parseJsonElems : Nat → List Char → Option (List JSValue × List Char)
  | 0, _ => none
  | fuel + 1, l =>
    (parseJsonVal fuel l).bind fun vp =>
      match skipWs vp.2 with
      | ',' :: rest => (parseJsonElems fuel rest).map (fun ep => (vp.1 :: ep.1, ep.2))
      | ']' :: rest => some ([vp.1], rest)
      | _ => none

end

/-- Model of `JSON.parse`: parse one value and require only whitespace to
remain; `none` models the builtin throwing a `SyntaxError`. -/
def jsonParse (s : String) : Option JSValue :=
  match parseJsonVal (s.length + 1) s.data with
  | some (v, rest) => if (skipWs rest).isEmpty then some v else none
  | none => none

/-- The `content-type` response header, defaulting to the empty string. -/
def contentTypeOf (hs : List (String × String)) : String :=
  (getKey "content-type" hs).getD ""

/-- Substring test on character lists. -/
def listHasSub : List Char → List Char → Bool
  | [], needle => needle.isEmpty
  | c :: rest, needle => listStarts (c :: rest) needle || listHasSub rest needle

/-- Model of JavaScript `hay.includes(needle)`. -/
def strIncl (hay needle : String) : Bool :=
  listHasSub hay.data needle.data

/-- The success-path body interpretation: when the content type includes
`application/json` and the data is a string, try `JSON.parse`, degrading to
the raw payload on failure; otherwise pass the data through. -/
def parseRespData (ct : String) (d : JSValue) : JSValue :=
  match d with
  | .str s => if strIncl ct "application/json" then (jsonParse s).getD (.str s) else .str s
  | _ => d

/-- The error-path body interpretation: a string payload is parsed
best-effort with raw fallback, anything else passes through. -/
def parseErrData (d : JSValue) : JSValue :=
  match d with
  | .str s => (jsonParse s).getD (.str s)
  | _ => d

/-- One response of the proxy endpoint: an early or transport failure
(`res.status(s).json({error, duration})`), the success-path payload, or the
`error.response` payload that carries the `error: true` flag. -/
inductive HandlerResult where
  | failure (httpStatus : Nat) (errMsg : String) (duration : Nat)
  | success (status : Int) (statusText : String) (headers : List (String × String))
      (data : JSValue) (duration : Nat) (size : Nat) (redirected : Bool)
  | upstreamError (status : Int) (statusText : String) (headers : List (String × String))
      (data : JSValue) (duration : Nat)
deriving Repr

/-- Whether the result is the `error: true` flagged payload. -/
def HandlerResult.errorFlag : HandlerResult → Bool
  | .upstreamError _ _ _ _ _ => true
  | _ => false

/-- The `size` field of the result, when the result has one. -/
def HandlerResult.sizeField : HandlerResult → Option Nat
  | .success _ _ _ _ _ size _ => some size
  | _ => none

/-- The full proxy handler: run the pre-dispatch stages, dispatch (modelled
by the supplied wire outcome), and normalize.  The success path reports the
literal upstream status and statusText, the best-effort parsed data,
`JSON.stringify(response.data).length` as size, and the redirect flag; the
catch block classifies failures by `error.code`, then `error.response`
(flagged `error: true`), then `error.request`, else the generic 500. -/
def handleProxy (mode : EnvMode) (r : ProxyRequest) (o : ExchangeOutcome)
    (duration : Nat) : HandlerResult :=
  match prepare mode r with
  | .error e => .failure e.status e.msg duration
  | .ok _ =>
    match axiosSettle o with
    | .ok resp =>
      .success resp.status resp.statusText resp.headers
        (parseRespData (contentTypeOf resp.headers) resp.data)
        duration
        ((jsonStringify resp.data).length)
        (resp.responseUrl != some (r.url.getD ""))
    | .error e =>
      if e.code == some "ECONNREFUSED" then
        .failure 503 "Connection refused - the server may be down or the URL may be incorrect" duration
      else if e.code == some "ENOTFOUND" then
        .failure 404 "DNS lookup failed - the hostname could not be resolved" duration
      else if e.code == some "ETIMEDOUT" then
        .failure 408 "Request timeout - the server took too long to respond" duration
      else
        match e.response with
        | some er =>
          .upstreamError er.status er.statusText er.headers (parseErrData er.data) duration
        | none =>
          if e.hasRequest then
            .failure 502 "No response received from server" duration
          else
            .failure 500 e.message duration


/-- A minimal valid GET request to a public host, used as the base of the
concrete evaluations below. -/
def reqBase : ProxyRequest :=
  { url := some "http://example.com/", method := some "GET", headers := .absent,
    body := none, timeout := none, auth := none }

/-- The configuration `prepare` builds for `reqBase`. -/
def cfgBase : AxiosConfig :=
  { method := "get", url := "http://example.com/", timeout := some 30000,
    headers := none, data := none }

/-- A completed upstream 404 exchange with a JSON error body. -/
def resp404 : UpstreamResponse :=
  { status := 404, statusText := "Not Found",
    headers := [("content-type", "application/json")],
    data := .obj [("error", .str "not found")], responseUrl := none }

/-- A completed upstream 500 exchange, for the C1 witness. -/
def resp500 : UpstreamResponse :=
  { status := 500, statusText := "Internal Server Error", headers := [],
    data := .str "oops", responseUrl := some "http://example.com/" }

/-- A request whose caller-supplied headers contain a capitalized Host key. -/
def reqC2 : ProxyRequest := { reqBase with headers := .map [("Host", "evil.example")] }

/-- A request aimed at a hostname that merely starts with `localhost`. -/
def reqC3 : ProxyRequest := { reqBase with url := some "http://localhost.evil.com/" }

/-- A request aimed at a private-range address, for the C3 witness. -/
def reqC3w : ProxyRequest := { reqBase with url := some "http://10.0.0.5/" }

/-- A request with no `url` field. -/
def reqC5w : ProxyRequest := { reqBase with url := none }

/-- A request with an ordinary caller header mapping, for the C6 witness. -/
def reqC6w : ProxyRequest := { reqBase with headers := .map [("X-Custom", "1")] }

/-- The configuration `prepare` builds for `reqC6w`. -/
def cfgC6w : AxiosConfig :=
  { method := "get", url := "http://example.com/", timeout := some 30000,
    headers := some [("X-Custom", "1"), ("user-agent", defaultUserAgent)],
    data := none }

/-- The configuration `prepare` builds for `reqC2`. -/
def cfgC2 : AxiosConfig :=
  { method := "get", url := "http://example.com/", timeout := some 30000,
    headers := some [("Host", "evil.example"), ("user-agent", defaultUserAgent)],
    data := none }

/-- A POST whose supplied body is the empty string (falsy in JavaScript). -/
def reqC7 : ProxyRequest :=
  { reqBase with method := some "POST", body := some (.str "") }

/-- A POST with a non-empty body, for the C7 witness. -/
def reqC7w : ProxyRequest :=
  { reqBase with method := some "POST", body := some (.str "hello") }

/-- The configuration `prepare` builds for `reqC7w`. -/
def cfgC7w : AxiosConfig :=
  { method := "post", url := "http://example.com/", timeout := some 30000,
    headers := none, data := some (.str "hello") }

/-- A request with an unparseable `timeout` value. -/
def reqC8 : ProxyRequest := { reqBase with timeout := some (.str "abc") }

/-- A request with a parseable `timeout`, for the C8 witness. -/
def reqC8w : ProxyRequest := { reqBase with timeout := some (.num 50) }

/-- The configuration `prepare` builds for `reqC8w`. -/
def cfgC8w : AxiosConfig :=
  { method := "get", url := "http://example.com/", timeout := some 50,
    headers := none, data := none }

/-- A completed exchange delivering a plain-text string payload. -/
def respC9 : UpstreamResponse :=
  { status := 200, statusText := "OK", headers := [("content-type", "text/plain")],
    data := .str "hi", responseUrl := some "http://example.com/" }

/-- A request asking for bearer auth while supplying no headers object. -/
def reqC10w : ProxyRequest :=
  { reqBase with auth := some { typ := some "medimapper", token := some "tok" } }

theorem getKey_deleteKey_self (k : String) (l : List (String × String)) :
    getKey k (deleteKey k l) = none := by
  induction l with
  | nil => rfl
  | cons kv rest ih =>
    by_cases h : kv.1 = k
    · simpa [deleteKey, List.filter_cons, h] using ih
    · simp only [deleteKey, List.filter_cons] at ih ⊢
      simp [h, getKey, ih]

theorem getKey_deleteKey_other {k k' : String} (h : k ≠ k')
    (l : List (String × String)) :
    getKey k (deleteKey k' l) = getKey k l := by
  have h' : ¬ k' = k := Ne.symm h
  induction l with
  | nil => rfl
  | cons kv rest ih =>
    simp only [deleteKey, List.filter_cons] at ih ⊢
    by_cases h2 : kv.1 = k'
    · simp [h2, getKey, h', ih]
    · by_cases h3 : kv.1 = k
      · simp [h2, h3, getKey, h, h']
      · simp [h2, h3, getKey, ih]

theorem getKey_setKey_self (k v : String) (l : List (String × String)) :
    getKey k (setKey k v l) = some v := by
  induction l with
  | nil => simp [setKey, getKey]
  | cons kv rest ih =>
    by_cases h : kv.1 = k
    · simp [setKey, h, getKey]
    · simp only [setKey]
      simp [h, getKey, ih]

theorem getKey_setKey_other {k k' : String} (h : k ≠ k') (v : String)
    (l : List (String × String)) :
    getKey k (setKey k' v l) = getKey k l := by
  have h' : ¬ k' = k := Ne.symm h
  induction l with
  | nil => simp [setKey, getKey, h']
  | cons kv rest ih =>
    by_cases h2 : kv.1 = k'
    · simp [setKey, h2, getKey, h']
    · simp only [setKey]
      by_cases h3 : kv.1 = k
      · simp [h2, h3, getKey, h, h']
      · simp [h2, h3, getKey, ih]

theorem getKey_deleteKey_none {k : String} {l : List (String × String)}
    (h : getKey k l = none) (k' : String) :
    getKey k (deleteKey k' l) = none := by
  by_cases hk : k = k'
  · subst hk; exact getKey_deleteKey_self k l
  · rw [getKey_deleteKey_other hk]; exact h

theorem getKey_foldDel_none {k : String} {l : List (String × String)}
    (h : getKey k l = none) (ds : List String) :
    getKey k (ds.foldl (fun acc d => deleteKey d acc) l) = none := by
  induction ds generalizing l with
  | nil => exact h
  | cons d ds ih => exact ih (getKey_deleteKey_none h d)

theorem getKey_foldDel_mem {k : String} (ds : List String)
    (l : List (String × String)) (h : k ∈ ds) :
    getKey k (ds.foldl (fun acc d => deleteKey d acc) l) = none := by
  induction ds generalizing l with
  | nil => cases h
  | cons d ds ih =>
    rw [List.foldl_cons]
    rcases List.mem_cons.mp h with rfl | hmem
    · exact getKey_foldDel_none (getKey_deleteKey_self k l) ds
    · exact ih _ hmem

theorem getKey_sanitize_disallowed (entries : List (String × String))
    {k : String} (hk : k ∈ disallowedHeaders) :
    getKey k (sanitizeHeaders entries) =
      if k = "user-agent" then some defaultUserAgent else none := by
  have hua : ("user-agent" : String) ∈ disallowedHeaders := by
    simp [disallowedHeaders]
  unfold sanitizeHeaders
  have h2ua : getKey "user-agent" (sanitizedBase entries) = none :=
    getKey_foldDel_mem _ _ hua
  rw [h2ua]
  simp only [truthyS, Bool.false_eq_true, if_false]
  by_cases hk2 : k = "user-agent"
  · subst hk2; simp [getKey_setKey_self]
  · rw [getKey_setKey_other hk2]
    simp [sanitizedBase, getKey_foldDel_mem _ _ hk, hk2]

theorem getKey_sanitize_ua (entries : List (String × String)) :
    getKey "user-agent" (sanitizeHeaders entries) = some defaultUserAgent := by
  simpa using getKey_sanitize_disallowed entries (k := "user-agent")
    (by simp [disallowedHeaders])

theorem applyAuth_error (auth : Option AuthField)
    (hdrs : Option (List (String × String))) (e : EarlyFailure)
    (h : applyAuth auth hdrs = .error e) : e = ⟨500, authTypeErrorMsg⟩ := by
  rcases auth with _ | a
  · simp [applyAuth] at h
  · simp only [applyAuth] at h
    by_cases hc : ((a.typ == some "medimapper") && truthyS a.token) = true
    · rw [if_pos hc] at h
      rcases hdrs with _ | h0
      · injection h with h'; exact h'.symm
      · cases h
    · rw [if_neg hc] at h; cases h

theorem applyAuth_ok (auth : Option AuthField)
    (hdrs hdrs2 : Option (List (String × String)))
    (h : applyAuth auth hdrs = .ok hdrs2) :
    hdrs2 = hdrs ∨
      ∃ t h0, hdrs = some h0 ∧ hdrs2 = some (setKey "Authorization" t h0) := by
  rcases auth with _ | a
  · simp only [applyAuth] at h
    left; injection h with h'; exact h'.symm
  · simp only [applyAuth] at h
    by_cases hc : ((a.typ == some "medimapper") && truthyS a.token) = true
    · rw [if_pos hc] at h
      rcases hdrs with _ | h0
      · cases h
      · right
        refine ⟨"Bearer " ++ a.token.getD "", h0, rfl, ?_⟩
        injection h with h'; exact h'.symm
    · rw [if_neg hc] at h
      left; injection h with h'; exact h'.symm

theorem prepare_ok_shape (mode : EnvMode) (r : ProxyRequest) (cfg : AxiosConfig)
    (h : prepare mode r = .ok cfg) :
    cfg.method = strToLower (r.method.getD "") ∧
    cfg.timeout = parseIntJS (jsToString (r.timeout.getD (.num 30000))) ∧
    cfg.data = (if bodyMethods.contains (strToLower (r.method.getD ""))
                   && truthyOptJ r.body
                then r.body else none) ∧
    ((∃ entries, r.headers = .map entries ∧
        (cfg.headers = some (sanitizeHeaders entries) ∨
         ∃ t, cfg.headers = some (setKey "Authorization" t (sanitizeHeaders entries)))) ∨
     (r.headers.isMapB = false ∧ cfg.headers = none)) := by
  unfold prepare at h
  split at h
  · cases h
  split at h
  · cases h
  split at h
  · cases h
  next u hu =>
    split at h
    · cases h
    next hguard =>
      unfold buildStage at h
      cases happ : applyAuth r.auth (builtHeaders r.headers) with
      | error e => rw [happ] at h; cases h
      | ok hdrs2 =>
        rw [happ] at h
        injection h with h'
        subst h'
        refine ⟨rfl, rfl, rfl, ?_⟩
        rcases applyAuth_ok _ _ _ happ with heq | ⟨t, h0, hh0, heq⟩
        · cases hh : r.headers with
          | map entries =>
            left
            exact ⟨entries, rfl, Or.inl (by rw [heq, hh]; rfl)⟩
          | absent =>
            right
            exact ⟨rfl, by rw [heq, hh]; rfl⟩
          | nonObject v =>
            right
            exact ⟨rfl, by rw [heq, hh]; rfl⟩
        · cases hh : r.headers with
          | map entries =>
            left
            refine ⟨entries, rfl, Or.inr ⟨t, ?_⟩⟩
            rw [hh] at hh0
            simp only [builtHeaders] at hh0
            injection hh0 with hh0'
            rw [heq, hh0']
          | absent => rw [hh] at hh0; cases hh0
          | nonObject v => rw [hh] at hh0; cases hh0

theorem buildStage_error (r : ProxyRequest) (e : EarlyFailure)
    (h : buildStage r = .error e) : e = ⟨500, authTypeErrorMsg⟩ := by
  unfold buildStage at h
  cases happ : applyAuth r.auth (builtHeaders r.headers) with
  | error e2 =>
    rw [happ] at h
    injection h with h'
    rw [← h']
    exact applyAuth_error _ _ _ happ
  | ok hdrs2 => rw [happ] at h; cases h

theorem prepare_valid_eq (mode : EnvMode) (r : ProxyRequest) (u : ParsedURL)
    (hu : truthyS r.url = true) (hm : truthyS r.method = true)
    (hp : parseURL (r.url.getD "") = some u) :
    prepare mode r =
      if (mode == .production) && isBlockedHost u.hostname then
        .error ⟨403, blockedMsg⟩
      else buildStage r := by
  unfold prepare
  rw [if_neg (by simp [hu]), if_neg (by simp [hm]), hp]

theorem prepare_error_cases (mode : EnvMode) (r : ProxyRequest) (e : EarlyFailure)
    (h : prepare mode r = .error e) :
    e = ⟨400, "URL is required"⟩ ∨ e = ⟨400, "HTTP method is required"⟩ ∨
    e = ⟨400, "Invalid URL format"⟩ ∨
    (e = ⟨403, blockedMsg⟩ ∧ mode = .production) ∨
    e = ⟨500, authTypeErrorMsg⟩ := by
  unfold prepare at h
  split at h
  · left; injection h with h'; exact h'.symm
  split at h
  · right; left; injection h with h'; exact h'.symm
  split at h
  · right; right; left; injection h with h'; exact h'.symm
  next u hu =>
    split at h
    · next hguard =>
      right; right; right; left
      refine ⟨by injection h with h'; exact h'.symm, ?_⟩
      cases mode with
      | production => rfl
      | development =>
        rw [show (EnvMode.development == EnvMode.production) = false from rfl,
          Bool.false_and] at hguard
        cases hguard
    · right; right; right; right
      exact buildStage_error _ _ h

/-- C1, counterexample: the upstream completes a 404 exchange, yet the
handler returns it through the success path with no `error: true` flag —
the claim's UpstreamError shape (distinguished exactly by that flag) is not
produced, because `validateStatus` accepts every status in [200, 600). -/
theorem c1_counterexample :
    handleProxy .development reqBase (.completed resp404) 5 =
      .success 404 "Not Found" [("content-type", "application/json")]
        (.obj [("error", .str "not found")]) 5 21 true ∧
    (handleProxy .development reqBase (.completed resp404) 5).errorFlag = false :=
  ⟨rfl, rfl⟩

/-- C1, amended: for every dispatched request whose upstream completes the
exchange with a 4xx or 5xx status, the handler returns the success-shaped
result carrying the literal upstream status and statusText — never a local
TransportFailure — but without the `error: true` flag (that flag is only
produced when `validateStatus` rejects, i.e. outside [200, 600)). -/
theorem c1_upstream_status_passthrough (mode : EnvMode) (r : ProxyRequest)
    (cfg : AxiosConfig) (resp : UpstreamResponse) (dur : Nat)
    (hok : prepare mode r = .ok cfg)
    (h4 : 400 ≤ resp.status) (h6 : resp.status < 600) :
    handleProxy mode r (.completed resp) dur =
      .success resp.status resp.statusText resp.headers
        (parseRespData (contentTypeOf resp.headers) resp.data) dur
        ((jsonStringify resp.data).length)
        (resp.responseUrl != some (r.url.getD "")) ∧
    (handleProxy mode r (.completed resp) dur).errorFlag = false := by
  have hv : validateStatus resp.status = true := by
    unfold validateStatus
    rw [Bool.and_eq_true, decide_eq_true_eq, decide_eq_true_eq]
    exact ⟨by omega, h6⟩
  have h1 : handleProxy mode r (.completed resp) dur =
      .success resp.status resp.statusText resp.headers
        (parseRespData (contentTypeOf resp.headers) resp.data) dur
        ((jsonStringify resp.data).length)
        (resp.responseUrl != some (r.url.getD "")) := by
    simp only [handleProxy, hok, axiosSettle, hv, if_true]
  exact ⟨h1, by rw [h1]; rfl⟩

/-- C1, witness: the amended theorem applied to a concrete 500 exchange. -/
theorem c1_witness :
    handleProxy .development reqBase (.completed resp500) 3 =
      .success resp500.status resp500.statusText resp500.headers
        (parseRespData (contentTypeOf resp500.headers) resp500.data) 3
        ((jsonStringify resp500.data).length)
        (resp500.responseUrl != some (reqBase.url.getD "")) ∧
    (handleProxy .development reqBase (.completed resp500) 3).errorFlag = false :=
  c1_upstream_status_passthrough .development reqBase cfgBase resp500 3
    (by rfl) (by decide) (by decide)

/-- C2, counterexample: a caller-supplied `Host` header in capitalized form
survives sanitization — the `delete` statements remove only the exact
lowercase property names, so removal is not case-insensitive. -/
theorem c2_counterexample :
    getKey "Host" (sanitizeHeaders [("Host", "evil.example")]) = some "evil.example" ∧
    prepare .development reqC2 = .ok cfgC2 :=
  ⟨rfl, rfl⟩

/-- C2, amended: removal is exact (case-sensitive) on the seven listed
lowercase names: whenever a headers object is supplied and the build
succeeds, the built mapping binds none of those exact keys to a
caller-supplied value — `user-agent` is rebound to the fixed default and
the other six are absent; differently-capitalized variants are untouched
(see the counterexample). -/
theorem c2_exact_lowercase_removal (mode : EnvMode) (r : ProxyRequest)
    (entries : List (String × String)) (cfg : AxiosConfig) (k : String)
    (hh : r.headers = .map entries) (hok : prepare mode r = .ok cfg)
    (hk : k ∈ disallowedHeaders) :
    ∃ h, cfg.headers = some h ∧
      getKey k h = (if k = "user-agent" then some defaultUserAgent else none) := by
  have hka : k ≠ "Authorization" := by fin_cases hk <;> decide
  rcases (prepare_ok_shape _ _ _ hok).2.2.2 with ⟨entries2, hmap, hc⟩ | ⟨hnm, _⟩
  · rw [hh] at hmap
    injection hmap with he
    subst he
    rcases hc with hc | ⟨t, hc⟩
    · exact ⟨_, hc, getKey_sanitize_disallowed _ hk⟩
    · refine ⟨_, hc, ?_⟩
      rw [getKey_setKey_other hka, getKey_sanitize_disallowed _ hk]
  · rw [hh] at hnm; cases hnm

/-- C2, witness: the amended theorem applied to the capitalized-Host
request at the exact key `host`. -/
theorem c2_witness :
    ∃ h, cfgC2.headers = some h ∧
      getKey "host" h = (if "host" = "user-agent" then some defaultUserAgent else none) :=
  c2_exact_lowercase_removal .development reqC2 [("Host", "evil.example")] cfgC2 "host"
    (by rfl) (by rfl) (by decide)

/-- C3, counterexample: the hostname `localhost.evil.com` matches none of
the spec's denylist conditions (exact equality on the loopback names,
prefix on the private ranges), yet the code rejects it with 403, because
every entry — including `localhost` — is prefix-matched. -/
theorem c3_counterexample :
    specDenylistMatch "localhost.evil.com" = false ∧
    isBlockedHost "localhost.evil.com" = true ∧
    prepare .production reqC3 = .error ⟨403, blockedMsg⟩ :=
  ⟨by decide, by decide, by rfl⟩

/-- C3, amended: in production mode a validated request is rejected with
the 403 TransportFailure iff the parsed hostname string-prefix-matches one
of the twenty denylist entries (prefix matching applies to all entries,
including `localhost`, `127.0.0.1`, `0.0.0.0` and `::1`); in development
mode no request is rejected with 403. -/
theorem c3_denylist_all_leading_match :
    (∀ (r : ProxyRequest) (u : ParsedURL),
       truthyS r.url = true → truthyS r.method = true →
       parseURL (r.url.getD "") = some u →
       (prepare .production r = .error ⟨403, blockedMsg⟩ ↔
         isBlockedHost u.hostname = true)) ∧
    (∀ (r : ProxyRequest) (e : EarlyFailure),
       prepare .development r = .error e → e.status ≠ 403) := by
  constructor
  · intro r u hu hm hp
    rw [prepare_valid_eq .production r u hu hm hp,
      show (EnvMode.production == EnvMode.production) = true from rfl, Bool.true_and]
    constructor
    · intro h
      cases hb : isBlockedHost u.hostname with
      | false =>
        rw [hb, if_neg (by simp)] at h
        exact absurd (buildStage_error _ _ h) (by decide)
      | true => rfl
    · intro hb
      rw [if_pos hb]
  · intro r e h
    rcases prepare_error_cases _ _ _ h with h1 | h1 | h1 | ⟨h1, hmode⟩ | h1
    · rw [h1]; decide
    · rw [h1]; decide
    · rw [h1]; decide
    · exact absurd hmode (by decide)
    · rw [h1]; decide

/-- C3, witness: the amended theorem applied to a request for a
private-range address in production mode. -/
theorem c3_witness : prepare .production reqC3w = .error ⟨403, blockedMsg⟩ :=
  (c3_denylist_all_leading_match.1 reqC3w ⟨"10.0.0.5"⟩ (by decide) (by decide)
    (by decide)).mpr (by decide)

/-- C4: when the dispatched exchange fails with the timeout error (code
`ETIMEDOUT`, the code's deadline-exceeded branch), the handler returns the
TransportFailure with httpStatus 408 and the took-too-long message. -/
theorem c4_timeout_408 (mode : EnvMode) (r : ProxyRequest) (cfg : AxiosConfig)
    (e : AxiosError) (dur : Nat)
    (hok : prepare mode r = .ok cfg) (hc : e.code = some "ETIMEDOUT") :
    handleProxy mode r (.failed e) dur =
      .failure 408 "Request timeout - the server took too long to respond" dur := by
  simp only [handleProxy, hok, axiosSettle, hc]
  rw [show ((some "ETIMEDOUT" : Option String) == some "ECONNREFUSED") = false from rfl,
    show ((some "ETIMEDOUT" : Option String) == some "ENOTFOUND") = false from rfl,
    show ((some "ETIMEDOUT" : Option String) == some "ETIMEDOUT") = true from rfl]
  simp

/-- C4, witness: the theorem applied to a concrete timed-out exchange. -/
theorem c4_witness :
    handleProxy .development reqBase
      (.failed { code := some "ETIMEDOUT", response := none, hasRequest := true,
                 message := "timeout" }) 7 =
      .failure 408 "Request timeout - the server took too long to respond" 7 :=
  c4_timeout_408 .development reqBase cfgBase
    { code := some "ETIMEDOUT", response := none, hasRequest := true,
      message := "timeout" } 7 (by rfl) (by rfl)

/-- C5: whenever `url` is absent or falsy, `method` is absent or falsy, or
`url` does not parse as an absolute URL, the handler answers with a 400
TransportFailure whose duration is the non-negative elapsed time, and the
result is the same for every wire outcome — no dispatch is attempted. -/
theorem c5_validation_rejects_before_dispatch (mode : EnvMode) (r : ProxyRequest)
    (dur : Nat)
    (h : truthyS r.url = false ∨ truthyS r.method = false ∨
         parseURL (r.url.getD "") = none) :
    ∃ msg, prepare mode r = .error ⟨400, msg⟩ ∧
      (∀ o : ExchangeOutcome, handleProxy mode r o dur = .failure 400 msg dur) ∧
      0 ≤ dur := by
  have hpre : ∃ msg, prepare mode r = .error ⟨400, msg⟩ := by
    by_cases hu : truthyS r.url = false
    · exact ⟨_, by unfold prepare; rw [if_pos hu]⟩
    · by_cases hm : truthyS r.method = false
      · exact ⟨_, by unfold prepare; rw [if_neg hu, if_pos hm]⟩
      · have hp : parseURL (r.url.getD "") = none := by
          rcases h with h | h | h
          · exact absurd h hu
          · exact absurd h hm
          · exact h
        exact ⟨_, by unfold prepare; rw [if_neg hu, if_neg hm, hp]⟩
  rcases hpre with ⟨msg, hmsg⟩
  refine ⟨msg, hmsg, fun o => ?_, Nat.zero_le _⟩
  simp only [handleProxy, hmsg]

/-- C5, witness: the theorem applied to a request with no `url` field. -/
theorem c5_witness :
    ∃ msg, prepare .development reqC5w = .error ⟨400, msg⟩ ∧
      (∀ o : ExchangeOutcome, handleProxy .development reqC5w o 2 = .failure 400 msg 2) ∧
      (0 : Nat) ≤ 2 :=
  c5_validation_rejects_before_dispatch .development reqC5w 2 (Or.inl (by decide))

/-- C6, counterexample: a validated spec that supplies no headers object
builds a configuration with no header mapping at all, hence no user-agent
entry — the default is injected only inside the `headers && typeof headers
=== 'object'` block. -/
theorem c6_counterexample :
    reqBase.headers = HeadersField.absent ∧
    prepare .development reqBase = .ok cfgBase ∧
    cfgBase.headers = none :=
  ⟨rfl, rfl, rfl⟩

/-- C6, amended: whenever the caller supplies a headers object, the built
mapping contains a `user-agent` entry, and that entry is the fixed string
`APITestingTool/1.0.0` (the exact-lowercase caller key is always deleted
first); when no headers object is supplied, no header mapping is built. -/
theorem c6_default_user_agent (mode : EnvMode) (r : ProxyRequest)
    (entries : List (String × String)) (cfg : AxiosConfig)
    (hh : r.headers = .map entries) (hok : prepare mode r = .ok cfg) :
    ∃ h, cfg.headers = some h ∧
      getKey "user-agent" h = some defaultUserAgent := by
  rcases (prepare_ok_shape _ _ _ hok).2.2.2 with ⟨entries2, hmap, hc⟩ | ⟨hnm, _⟩
  · rw [hh] at hmap
    injection hmap with he
    subst he
    rcases hc with hc | ⟨t, hc⟩
    · exact ⟨_, hc, getKey_sanitize_ua _⟩
    · refine ⟨_, hc, ?_⟩
      rw [getKey_setKey_other (by decide), getKey_sanitize_ua]
  · rw [hh] at hnm; cases hnm

/-- C6, witness: the amended theorem applied to a request with an ordinary
caller header mapping. -/
theorem c6_witness :
    ∃ h, cfgC6w.headers = some h ∧
      getKey "user-agent" h = some defaultUserAgent :=
  c6_default_user_agent .development reqC6w [("X-Custom", "1")] cfgC6w
    (by rfl) (by rfl)

/-- C7, counterexample: a POST whose supplied body is the empty string — a
supplied body — builds a configuration with no body attached, because the
source also requires the body to be truthy (`&& body`). -/
theorem c7_counterexample :
    reqC7.body = some (.str "") ∧
    strToLower (reqC7.method.getD "") = "post" ∧
    prepare .development reqC7 =
      .ok { method := "post", url := "http://example.com/", timeout := some 30000,
            headers := none, data := none } :=
  ⟨rfl, rfl, rfl⟩

/-- C7, amended: the built request carries the supplied body iff the
lower-cased method is one of post, put, patch, delete and the supplied body
is truthy (non-empty string, non-zero, not null/false); in particular any
method outside that list never forwards a body. -/
theorem c7_body_iff_truthy (mode : EnvMode) (r : ProxyRequest) (cfg : AxiosConfig)
    (hok : prepare mode r = .ok cfg) :
    cfg.data = (if bodyMethods.contains (strToLower (r.method.getD ""))
                   && truthyOptJ r.body
                then r.body else none) ∧
    (bodyMethods.contains (strToLower (r.method.getD "")) = false →
      cfg.data = none) := by
  have h := (prepare_ok_shape _ _ _ hok).2.2.1
  refine ⟨h, fun hm => ?_⟩
  rw [h, hm, Bool.false_and]
  rfl

/-- C7, witness: the amended theorem applied to a POST with a non-empty
string body. -/
theorem c7_witness :
    cfgC7w.data = (if bodyMethods.contains (strToLower (reqC7w.method.getD ""))
                      && truthyOptJ reqC7w.body
                   then reqC7w.body else none) ∧
    (bodyMethods.contains (strToLower (reqC7w.method.getD "")) = false →
      cfgC7w.data = none) :=
  c7_body_iff_truthy .development reqC7w cfgC7w (by rfl)

/-- C8, counterexample: a supplied but unparseable `timeout` of "abc" makes
`parseInt` produce NaN (modelled as `none`), not the 30000 default — the
default applies only when the field is absent. -/
theorem c8_counterexample :
    reqC8.timeout = some (.str "abc") ∧
    prepare .development reqC8 =
      .ok { method := "get", url := "http://example.com/", timeout := none,
            headers := none, data := none } ∧
    (none : Option Int) ≠ some 30000 :=
  ⟨rfl, rfl, by decide⟩

/-- C8, amended: the dispatched timeout is `parseInt` of the string
coercion of the supplied value, with 30000 substituted only when the field
is absent; an absent field therefore yields 30000, while a supplied
unparseable value yields NaN. -/
theorem c8_timeout_parseint (mode : EnvMode) (r : ProxyRequest) (cfg : AxiosConfig)
    (hok : prepare mode r = .ok cfg) :
    cfg.timeout = parseIntJS (jsToString (r.timeout.getD (.num 30000))) ∧
    (r.timeout = none → cfg.timeout = some 30000) := by
  have h := (prepare_ok_shape _ _ _ hok).2.1
  refine ⟨h, fun hn => ?_⟩
  rw [h, hn]
  decide

/-- C8, witness: the amended theorem applied to a request with a numeric
timeout of 50. -/
theorem c8_witness :
    cfgC8w.timeout = parseIntJS (jsToString (reqC8w.timeout.getD (.num 30000))) ∧
    (reqC8w.timeout = none → cfgC8w.timeout = some 30000) :=
  c8_timeout_parseint .development reqC8w cfgC8w (by rfl)

/-- C9, counterexample: for a plain-text payload `"hi"` the serialized raw
payload is 2 bytes, but the reported size is 4 — the code measures
`JSON.stringify(response.data).length`, which re-serializes the value (a
string gains its quotes) instead of measuring the raw payload bytes. -/
theorem c9_counterexample :
    handleProxy .development reqBase (.completed respC9) 3 =
      .success 200 "OK" [("content-type", "text/plain")] (.str "hi") 3 4 false ∧
    String.utf8ByteSize "hi" = 2 ∧
    (handleProxy .development reqBase (.completed respC9) 3).sizeField ≠
      some (String.utf8ByteSize "hi") :=
  ⟨rfl, by decide, by decide⟩

/-- C9, amended: for every completed exchange the reported size equals the
UTF-16 length of `JSON.stringify` applied to the raw response data — a
formula independent of the content type and of whether the best-effort
JSON parse succeeded — which differs from the byte length of the raw
payload (see the counterexample). -/
theorem c9_size_stringify_length (mode : EnvMode) (r : ProxyRequest)
    (cfg : AxiosConfig) (resp : UpstreamResponse) (dur : Nat)
    (hok : prepare mode r = .ok cfg) (hv : validateStatus resp.status = true) :
    (handleProxy mode r (.completed resp) dur).sizeField =
      some ((jsonStringify resp.data).length) := by
  simp only [handleProxy, hok, axiosSettle, hv, if_true]
  rfl

/-- C9, witness: the amended theorem applied to the plain-text exchange. -/
theorem c9_witness :
    (handleProxy .development reqBase (.completed respC9) 3).sizeField =
      some ((jsonStringify respC9.data).length) :=
  c9_size_stringify_length .development reqBase cfgBase respC9 3 (by rfl) (by decide)

/-- C10: a validated, policy-passing request that asks for `medimapper`
bearer auth while supplying no headers object makes the handler assign
`Authorization` on an undefined mapping; the thrown TypeError reaches the
generic catch branch, producing the 500 TransportFailure with no dispatch
attempted (the result is independent of the wire outcome). -/
theorem c10_auth_without_headers_500 (mode : EnvMode) (r : ProxyRequest)
    (u : ParsedURL) (a : AuthField) (dur : Nat)
    (hu : truthyS r.url = true) (hm : truthyS r.method = true)
    (hp : parseURL (r.url.getD "") = some u)
    (hg : ((mode == .production) && isBlockedHost u.hostname) = false)
    (hh : r.headers.isMapB = false)
    (ha : r.auth = some a) (hat : a.typ = some "medimapper")
    (htk : truthyS a.token = true) :
    prepare mode r = .error ⟨500, authTypeErrorMsg⟩ ∧
    (∀ o : ExchangeOutcome,
      handleProxy mode r o dur = .failure 500 authTypeErrorMsg dur) := by
  have hbh : builtHeaders r.headers = none := by
    cases hhh : r.headers with
    | absent => rfl
    | nonObject v => rfl
    | map entries => rw [hhh] at hh; cases hh
  have hpre : prepare mode r = .error ⟨500, authTypeErrorMsg⟩ := by
    rw [prepare_valid_eq mode r u hu hm hp, if_neg (by simp [hg])]
    unfold buildStage
    rw [ha, hbh]
    simp [applyAuth, hat, htk]
  exact ⟨hpre, fun o => by simp only [handleProxy, hpre]⟩

/-- C10, witness: the theorem applied to a concrete request with
`medimapper` auth and no headers field. -/
theorem c10_witness :
    prepare .development reqC10w = .error ⟨500, authTypeErrorMsg⟩ ∧
    (∀ o : ExchangeOutcome,
      handleProxy .development reqC10w o 4 = .failure 500 authTypeErrorMsg 4) :=
  c10_auth_without_headers_500 .development reqC10w ⟨"example.com"⟩
    { typ := some "medimapper", token := some "tok" } 4
    (by decide) (by decide) (by decide) (by decide) (by rfl) (by rfl) (by rfl)
    (by decide)
